import Mathlib

/-!
Verification development for the Kruk case-service repository.

The embedding mirrors `src/services/CaseService.ts` (case store, idempotency
ledger, payment reconciliation) and `src/events/PaymentEventConsumer.ts`
(retry / dead-letter policy and the per-message effect pipeline), together
with `CaseEventPublisher.publish` (best-effort publication).

Representation choices:
* JavaScript numbers used for money are modelled as `Rat`; every monetary
  computation in the source is addition, subtraction and `Math.max`.
* `Date` values are modelled as `Nat` timestamps; sample-data dates are
  encoded as `yyyymmdd` literals.
* A JavaScript `Map` is an insertion-ordered association list
  (`Map.set` updates an existing key in place, else appends).
* A JavaScript `Set` is an insertion-ordered duplicate-free list
  (`Set.add` is a no-op on a member, else appends);
  `Array.from(set).slice(0, 5000)` followed by deletion of those values
  removes exactly the first 5000 elements in insertion order, which on a
  duplicate-free insertion-ordered list is `List.drop 5000`.
* The random `uuid` field of a history entry is omitted: it is a fresh
  opaque identifier never read by any code path.
-/

/-- Case lifecycle status, from `src/models/Case.ts` (`CaseStatus`). -/
inductive CaseStatus where
  | ACTIVE
  | SETTLEMENT
  | LEGAL_ACTION
  | CLOSED
  | WRITTEN_OFF
deriving DecidableEq

/-- Case priority, from `src/models/Case.ts` (`CasePriority`). -/
inductive CasePriority where
  | LOW
  | MEDIUM
  | HIGH
  | CRITICAL
deriving DecidableEq

/-- Case record, from `src/models/Case.ts` (`Case`). -/
structure Case where
  id : String
  debtorId : String
  creditorId : String
  originalDebt : Rat
  currentDebt : Rat
  paidAmount : Rat
  interestAccrued : Rat
  currency : String
  status : CaseStatus
  priority : CasePriority
  assignedAgentId : Option String := none
  assignedTeam : Option String := none
  createdAt : Nat
  updatedAt : Nat
  lastContactAt : Option Nat := none
  lastPaymentAt : Option Nat := none
  nextActionAt : Option Nat := none
  closedAt : Option Nat := none
  source : String
  externalRef : Option String := none
  tags : Option (List String) := none
  notes : Option String := none
deriving DecidableEq

/-- History entry, from `src/models/Case.ts` (`CaseHistoryEntry`); the random
`uuid` identifier and the unused optional `metadata` are omitted. -/
structure CaseHistoryEntry where
  caseId : String
  action : String
  description : String
  performedBy : String
  performedAt : Nat
deriving DecidableEq

/-- `Map.get`: first binding for the key in the association list. -/
def mapGet {β : Type} : List (String × β) → String → Option β
  | [], _ => none
  | p :: rest, k => if p.1 = k then some p.2 else mapGet rest k

/-- `Map.set`: update the existing binding in place, else append. -/
def mapSet {β : Type} : List (String × β) → String → β → List (String × β)
  | [], k, v => [(k, v)]
  | p :: rest, k, v => if p.1 = k then (k, v) :: rest else p :: mapSet rest k v

/-- `Set.has`. -/
def setHas (l : List String) (k : String) : Bool :=
  l.contains k

/-- `Set.add`: no-op on a member, else append (insertion order preserved). -/
def setAdd (l : List String) (k : String) : List String :=
  if l.contains k then l else l ++ [k]

/-- The whole mutable module state of `CaseService.ts`: the `cases` map, the
`caseHistory` map and the `processedPayments` idempotency ledger. -/
structure ServiceState where
  cases : List (String × Case)
  caseHistory : List (String × List CaseHistoryEntry)
  processedPayments : List String
deriving DecidableEq

/-- The idempotency key `` `${caseId}:${paymentId}` `` built in
`CaseService.recordPayment`. -/
def mkKey (caseId paymentId : String) : String :=
  caseId ++ ":" ++ paymentId

/-- `CaseService.addHistoryEntry`: read the entry list (default empty), push
the new entry, write it back. -/
def addHistoryEntry (h : List (String × List CaseHistoryEntry))
    (caseId action description performedBy : String) (now : Nat) :
    List (String × List CaseHistoryEntry) :=
  let history := (mapGet h caseId).getD []
  mapSet h caseId (history ++
    [{ caseId := caseId, action := action, description := description,
       performedBy := performedBy, performedAt := now }])

/-- `Math.max` on two rationals. -/
def mathMax (a b : Rat) : Rat :=
  if a ≤ b then b else a

theorem mathMax_eq_max (a b : Rat) : mathMax a b = max a b := by
  simp [mathMax, max_def]

attribute [local semireducible] Rat.add Rat.sub Rat.ofScientific

/-- Lines 313-316 of `CaseService.recordPayment`: add the amount to
`paidAmount`, recompute `currentDebt`, stamp `lastPaymentAt` / `updatedAt`. -/
def applyPaymentToCase (c : Case) (amount : Rat) (now : Nat) : Case :=
  { c with
    paidAmount := c.paidAmount + amount,
    currentDebt := mathMax 0 (c.originalDebt + c.interestAccrued - (c.paidAmount + amount)),
    lastPaymentAt := some now,
    updatedAt := now }

/-- `CaseService.recordPayment`, returning the pair (returned value, updated
module state).  Mirrors the source line by line: lookup; duplicate check
against the ledger (early return of the unmodified case); balance update;
PAYMENT_RECEIVED history entry; auto-close rule; reopen rule; ledger insert
with eviction of the first 5000 keys once the size exceeds 10000. -/
def recordPayment (st : ServiceState) (caseId paymentId : String)
    (amount : Rat) (now : Nat) : Option Case × ServiceState :=
  match mapGet st.cases caseId with
  | none => (none, st)
  | some caseData =>
    if setHas st.processedPayments (mkKey caseId paymentId) then
      (some caseData, st)
    else
      let c1 := applyPaymentToCase caseData amount now
      let h1 := addHistoryEntry st.caseHistory caseId "PAYMENT_RECEIVED"
        ("Payment " ++ paymentId ++ " received: " ++ toString amount ++ " " ++ caseData.currency)
        "payment-service" now
      let step2 : Case × List (String × List CaseHistoryEntry) :=
        if c1.currentDebt ≤ 0 ∧ c1.status ≠ CaseStatus.CLOSED then
          ({ c1 with status := CaseStatus.CLOSED, closedAt := some now },
           addHistoryEntry h1 caseId "CASE_CLOSED"
             "Case auto-closed: debt fully paid" "system" now)
        else (c1, h1)
      let step3 : Case × List (String × List CaseHistoryEntry) :=
        if step2.1.status = CaseStatus.WRITTEN_OFF ∧ 0 < amount then
          ({ step2.1 with status := CaseStatus.ACTIVE },
           addHistoryEntry step2.2 caseId "CASE_REOPENED"
             "Case reopened due to payment received after write-off" "system" now)
        else (step2.1, step2.2)
      let pp1 := setAdd st.processedPayments (mkKey caseId paymentId)
      let pp2 := if 10000 < pp1.length then pp1.drop 5000 else pp1
      (some step3.1,
       { cases := mapSet st.cases caseId step3.1,
         caseHistory := step3.2,
         processedPayments := pp2 })

/-- `CaseService.canAcceptPayments`: only LEGAL_ACTION blocks. -/
def canAcceptPayments (status : CaseStatus) : Bool :=
  status ≠ CaseStatus.LEGAL_ACTION

/-- Response shape of `CaseService.getCaseStatus`. -/
structure CaseStatusResponse where
  caseId : String
  status : CaseStatus
  canAcceptPayments : Bool
  reason : Option String
deriving DecidableEq

/-- `CaseService.getCaseStatus`. -/
def getCaseStatus (st : ServiceState) (id : String) : Option CaseStatusResponse :=
  match mapGet st.cases id with
  | none => none
  | some caseData =>
    let cap := canAcceptPayments caseData.status
    let reason : Option String :=
      if cap = false then
        if caseData.status = CaseStatus.LEGAL_ACTION then
          some "Case is in legal action. Contact legal department."
        else if caseData.status = CaseStatus.CLOSED then
          some "Case is closed. Payment may trigger review."
        else none
      else none
    some { caseId := id, status := caseData.status,
           canAcceptPayments := cap, reason := reason }

/-- Sample case CASE-2024-001 from `initializeSampleData`. -/
def sampleCase1 : Case :=
  { id := "CASE-2024-001", debtorId := "DBT-12345", creditorId := "CRED-BANK-001",
    originalDebt := 18000, currentDebt := 15000, paidAmount := 3000,
    interestAccrued := 1200, currency := "PLN",
    status := CaseStatus.SETTLEMENT, priority := CasePriority.MEDIUM,
    assignedAgentId := some "agent-anna-k", assignedTeam := some "Settlement Team",
    createdAt := 20230615, updatedAt := 20240115,
    lastContactAt := some 20240110, lastPaymentAt := some 20240115,
    nextActionAt := some 20240215,
    source := "Portfolio-2023-Q2", externalRef := some "BANK-REF-12345",
    tags := some ["settlement", "regular-payer"],
    notes := some "Debtor cooperating well. Settlement plan: 12 monthly installments." }

/-- Sample case CASE-2024-002 from `initializeSampleData`. -/
def sampleCase2 : Case :=
  { id := "CASE-2024-002", debtorId := "DBT-67890", creditorId := "CRED-TELCO-001",
    originalDebt := 5200.50, currentDebt := 5200.50, paidAmount := 0,
    interestAccrued := 320, currency := "PLN",
    status := CaseStatus.ACTIVE, priority := CasePriority.HIGH,
    assignedAgentId := some "agent-jan-m", assignedTeam := some "Collection Team A",
    createdAt := 20240110, updatedAt := 20240110,
    nextActionAt := some 20240125,
    source := "Direct-Assignment", externalRef := some "TELCO-2024-67890",
    tags := some ["new-case", "first-contact-pending"] }

/-- Sample case CASE-2024-003 from `initializeSampleData`. -/
def sampleCase3 : Case :=
  { id := "CASE-2024-003", debtorId := "DBT-11111", creditorId := "CRED-BANK-002",
    originalDebt := 45000, currentDebt := 40000, paidAmount := 5000,
    interestAccrued := 8500, currency := "PLN",
    status := CaseStatus.LEGAL_ACTION, priority := CasePriority.CRITICAL,
    assignedAgentId := some "legal-team", assignedTeam := some "Legal Department",
    createdAt := 20220320, updatedAt := 20231115,
    lastContactAt := some 20230810, lastPaymentAt := some 20230810,
    source := "Portfolio-2022-Q1", externalRef := some "BANK-REF-11111",
    tags := some ["legal-action", "court-pending"],
    notes := some "Court case in progress. File no: IC 1234/23. No contact from debtor." }

/-- Sample case CASE-2024-004 from `initializeSampleData`. -/
def sampleCase4 : Case :=
  { id := "CASE-2024-004", debtorId := "DBT-22222", creditorId := "CRED-UTILITY-001",
    originalDebt := 8500, currentDebt := 0, paidAmount := 8500,
    interestAccrued := 0, currency := "PLN",
    status := CaseStatus.CLOSED, priority := CasePriority.LOW,
    assignedAgentId := some "agent-piotr-s", assignedTeam := some "Collection Team B",
    createdAt := 20230105, updatedAt := 20240120,
    lastContactAt := some 20240118, lastPaymentAt := some 20240120,
    closedAt := some 20240120,
    source := "Portfolio-2023-Q1",
    tags := some ["paid-in-full"],
    notes := some "Fully paid. Case closed successfully." }

/-- Sample case CASE-2024-005 from `initializeSampleData`. -/
def sampleCase5 : Case :=
  { id := "CASE-2024-005", debtorId := "DBT-33333", creditorId := "CRED-BANK-001",
    originalDebt := 125000, currentDebt := 125000, paidAmount := 0,
    interestAccrued := 15000, currency := "PLN",
    status := CaseStatus.WRITTEN_OFF, priority := CasePriority.LOW,
    createdAt := 20190601, updatedAt := 20230601,
    source := "Portfolio-2019-Q2",
    tags := some ["written-off", "no-contact"],
    notes := some "Debtor unreachable. Written off after 4 years." }

/-- Module state right after `initializeSampleData()` runs: the five sample
cases with empty history lists and an empty idempotency ledger. -/
def initState : ServiceState :=
  { cases :=
      [("CASE-2024-001", sampleCase1), ("CASE-2024-002", sampleCase2),
       ("CASE-2024-003", sampleCase3), ("CASE-2024-004", sampleCase4),
       ("CASE-2024-005", sampleCase5)],
    caseHistory :=
      [("CASE-2024-001", []), ("CASE-2024-002", []), ("CASE-2024-003", []),
       ("CASE-2024-004", []), ("CASE-2024-005", [])],
    processedPayments := [] }

/-- One element of the `x-death` header array; `count` is optional because
`getDeathCount` guards each entry with `death.count || 0`. -/
structure XDeathEntry where
  count : Option Nat
deriving DecidableEq

/-- The optional `properties.headers` object of an AMQP delivery, with its
optional `x-death` array. -/
structure MessageHeaders where
  xDeath : Option (List XDeathEntry)
deriving DecidableEq

/-- Payload of a `payment.completed` event
(`PaymentEventConsumer.ts`, `PaymentCompletedEvent.payload`). -/
structure PaymentPayload where
  id : String
  caseId : String
  debtorId : String
  amount : Rat
  currency : String
  status : String
  processedAt : Option String := none
deriving DecidableEq

/-- A `payment.completed` event envelope (`PaymentEventConsumer.ts`); the
constant `eventType` discriminator is omitted. -/
structure PaymentCompletedEvent where
  eventId : String
  timestamp : String
  version : String
  source : String
  correlationId : String
  payload : PaymentPayload
deriving DecidableEq

/-- A delivered message as the consumer callback sees it: the parsed event
(JSON deserialization is abstracted away) plus the transport headers. -/
structure ConsumeMessage where
  headers : Option MessageHeaders
  event : PaymentCompletedEvent
deriving DecidableEq

/-- `PaymentEventConsumer.getDeathCount`: sum of the `count` fields of the
`x-death` entries, or 0 when the header is absent. -/
def getDeathCount (msg : ConsumeMessage) : Nat :=
  match msg.headers with
  | none => 0
  | some h =>
    match h.xDeath with
    | none => 0
    | some deaths => deaths.foldl (fun count d => count + d.count.getD 0) 0

/-- Observable side effects of processing one delivered message.  The two
publish constructors record a publish *attempt* (`channel.publish` inside
`CaseEventPublisher.publish`); `publishErrorLogged` records the
`console.error` emitted by the catch block of `CaseEventPublisher.publish`
when the attempt throws. -/
inductive Effect where
  | reconcile (caseId paymentId : String) (amount : Rat)
  | publishBalanceUpdated (caseId : String) (previousBalance newBalance : Rat)
  | publishStatusChanged (caseId : String) (previousStatus newStatus : CaseStatus)
  | publishErrorLogged
  | ack
  | nackRequeue
  | nackDeadLetter
deriving DecidableEq

/-- `CaseEventPublisher.publish`: the attempt, and on failure the logged
error; the failure is swallowed, so the caller observes no exception either
way. -/
def publishAttempt (publishFails : Bool) (e : Effect) : List Effect :=
  if publishFails then [e, Effect.publishErrorLogged] else [e]

/-- The catch block of the consumer callback: below 3 cumulative deaths,
negative-acknowledge with requeue (`nack(msg, false, true)`); otherwise
negative-acknowledge to the dead-letter exchange (`nack(msg, false, false)`). -/
def handleFailure (msg : ConsumeMessage) : List Effect :=
  if getDeathCount msg < 3 then [Effect.nackRequeue] else [Effect.nackDeadLetter]

/-- The consumer callback of `PaymentEventConsumer.startConsuming` combined
with `handlePaymentCompleted`, producing the effect trace, the updated case
store state and the updated `processedEventIds` set.  Order mirrors the
source: event-level duplicate check (ack and skip); case lookup (a miss
throws, routed to the catch block, nothing mutated); `recordPayment`;
publish of `case.balance.updated`; publish of `case.status.changed` when the
status changed; marking of the event id with the 10000/5000 eviction; ack.
`publishFails` says whether each `channel.publish` call throws (caught and
swallowed inside `CaseEventPublisher.publish`). -/
def processMessage (st : ServiceState) (processedEventIds : List String)
    (msg : ConsumeMessage) (publishFails : Bool) (now : Nat) :
    List Effect × ServiceState × List String :=
  let event := msg.event
  if setHas processedEventIds event.eventId then
    ([Effect.ack], st, processedEventIds)
  else
    match mapGet st.cases event.payload.caseId with
    | none => (handleFailure msg, st, processedEventIds)
    | some caseBefore =>
      let res := recordPayment st event.payload.caseId event.payload.id
        event.payload.amount now
      match res.1 with
      | none =>
        (Effect.reconcile event.payload.caseId event.payload.id event.payload.amount
           :: handleFailure msg, res.2, processedEventIds)
      | some updatedCase =>
        let tr :=
          Effect.reconcile event.payload.caseId event.payload.id event.payload.amount
            :: publishAttempt publishFails
                 (Effect.publishBalanceUpdated event.payload.caseId
                   caseBefore.currentDebt updatedCase.currentDebt)
            ++ (if caseBefore.status ≠ updatedCase.status then
                  publishAttempt publishFails
                    (Effect.publishStatusChanged event.payload.caseId
                      caseBefore.status updatedCase.status)
                else [])
        let ids1 := setAdd processedEventIds event.eventId
        let ids2 := if 10000 < ids1.length then ids1.drop 5000 else ids1
        (tr ++ [Effect.ack], res.2, ids2)

/-- Is an effect a publish attempt of a derived event. -/
def isPublishEffect : Effect → Bool
  | Effect.publishBalanceUpdated _ _ _ => true
  | Effect.publishStatusChanged _ _ _ => true
  | _ => false

/-- True when some derived-event publish attempt occurs strictly before the
first acknowledgement in the trace. -/
def publishBeforeAck (tr : List Effect) : Bool :=
  (tr.takeWhile (fun e => !(e == Effect.ack))).any isPublishEffect

/-- One `recordPayment` invocation, for stating sequences of pipeline calls. -/
structure PaymentCmd where
  caseId : String
  paymentId : String
  amount : Rat
  now : Nat

/-- A sequence of `recordPayment` calls applied to the module state. -/
def applyPayments (st : ServiceState) (ps : List PaymentCmd) : ServiceState :=
  ps.foldl (fun s p => (recordPayment s p.caseId p.paymentId p.amount p.now).2) st

theorem mapGet_mapSet_self {β : Type} (m : List (String × β)) (k : String) (v : β) :
    mapGet (mapSet m k v) k = some v := by
  induction m with
  | nil => simp [mapGet, mapSet]
  | cons p rest ih =>
    by_cases h : p.1 = k
    · simp [mapSet, h, mapGet]
    · simp [mapSet, h, mapGet, ih]

theorem mapGet_mapSet_ne {β : Type} (m : List (String × β)) (k k' : String) (v : β)
    (h : ¬ k = k') : mapGet (mapSet m k v) k' = mapGet m k' := by
  induction m with
  | nil => simp [mapGet, mapSet, h]
  | cons p rest ih =>
    have h' : ¬ k' = k := fun hh => h hh.symm
    by_cases hp : p.1 = k
    · simp [mapSet, hp, mapGet, h, h']
    · by_cases hp2 : p.1 = k'
      · simp [mapSet, hp, mapGet, hp2, h, h']
      · simp [mapSet, hp, mapGet, hp2, h, h', ih]

theorem addHistoryEntry_get (h : List (String × List CaseHistoryEntry))
    (caseId action description performedBy : String) (now : Nat) :
    mapGet (addHistoryEntry h caseId action description performedBy now) caseId
      = some ((mapGet h caseId).getD [] ++
          [{ caseId := caseId, action := action, description := description,
             performedBy := performedBy, performedAt := now }]) := by
  simp [addHistoryEntry, mapGet_mapSet_self]

theorem setHas_true_iff (l : List String) (k : String) :
    setHas l k = true ↔ k ∈ l := by
  simp [setHas, List.contains, List.elem_iff]

/-- A duplicate (ledger-hit) call leaves the whole module state untouched. -/
theorem recordPayment_suppressed (st : ServiceState) (caseId paymentId : String)
    (amount : Rat) (now : Nat)
    (hdup : setHas st.processedPayments (mkKey caseId paymentId) = true) :
    (recordPayment st caseId paymentId amount now).2 = st := by
  unfold recordPayment
  cases h : mapGet st.cases caseId <;> simp [h, hdup]

/-- A found case always yields a `some` result from `recordPayment`. -/
theorem recordPayment_found (st : ServiceState) (caseId paymentId : String)
    (amount : Rat) (now : Nat) (c : Case) (hc : mapGet st.cases caseId = some c) :
    ∃ u, (recordPayment st caseId paymentId amount now).1 = some u := by
  unfold recordPayment
  rw [hc]
  dsimp only
  split
  · exact ⟨c, rfl⟩
  · exact ⟨_, rfl⟩


/-- C1: applying `recordPayment` a second time with the same caseId and
paymentId returns exactly the result and the state of the first application:
the second call finds the ledger key and is a pure no-op, not an error. -/
theorem recordPayment_idempotent (st : ServiceState) (caseId paymentId : String)
    (amount : Rat) (t1 t2 : Nat) (c : Case)
    (hc : mapGet st.cases caseId = some c) :
    recordPayment (recordPayment st caseId paymentId amount t1).2 caseId paymentId amount t2
      = ((recordPayment st caseId paymentId amount t1).1,
         (recordPayment st caseId paymentId amount t1).2) ∧
    setHas (recordPayment st caseId paymentId amount t1).2.processedPayments
      (mkKey caseId paymentId) = true := by
  by_cases hdup : setHas st.processedPayments (mkKey caseId paymentId) = true
  · have h1 : recordPayment st caseId paymentId amount t1 = (some c, st) := by
      unfold recordPayment
      rw [hc]
      simp [hdup]
    rw [h1]
    refine ⟨?_, hdup⟩
    unfold recordPayment
    rw [hc]
    simp [hdup]
  · have hdup' : setHas st.processedPayments (mkKey caseId paymentId) = false :=
      Bool.eq_false_iff.mpr hdup
    have hins : (mkKey caseId paymentId) ∉ st.processedPayments := by
      intro hmem
      exact hdup ((setHas_true_iff _ _).mpr hmem)
    unfold recordPayment
    rw [hc]
    simp only [hdup', Bool.false_eq_true, if_false]
    have hkey : setHas
        (if 10000 < (setAdd st.processedPayments (mkKey caseId paymentId)).length then
          (setAdd st.processedPayments (mkKey caseId paymentId)).drop 5000
         else setAdd st.processedPayments (mkKey caseId paymentId))
        (mkKey caseId paymentId) = true := by
      rw [setHas_true_iff]
      have hadd : setAdd st.processedPayments (mkKey caseId paymentId)
          = st.processedPayments ++ [mkKey caseId paymentId] := by
        unfold setAdd
        rw [if_neg]
        intro habs
        exact hdup habs
      rw [hadd]
      split
      · next hlen =>
        have hle : 5000 ≤ st.processedPayments.length := by
          simp at hlen
          omega
        rw [List.drop_append_eq_append_drop]
        have : 5000 - st.processedPayments.length = 0 := by omega
        rw [this]
        simp
      · simp
    constructor
    · rw [mapGet_mapSet_self]
      dsimp only
      rw [if_pos hkey]
    · exact hkey

/-- C1 witness: the second application of the same payment to the first
sample case returns the result and state of the first application. -/
theorem recordPayment_idempotent_witness :
    recordPayment (recordPayment initState "CASE-2024-001" "PAY-1" 1500 3).2
        "CASE-2024-001" "PAY-1" 1500 4
      = ((recordPayment initState "CASE-2024-001" "PAY-1" 1500 3).1,
         (recordPayment initState "CASE-2024-001" "PAY-1" 1500 3).2) ∧
    setHas (recordPayment initState "CASE-2024-001" "PAY-1" 1500 3).2.processedPayments
      (mkKey "CASE-2024-001" "PAY-1") = true :=
  recordPayment_idempotent initState "CASE-2024-001" "PAY-1" 1500 3 4 sampleCase1 (by decide)

/-- C5: a `recordPayment` call for a caseId missing from the case store
returns NotFound (`none`) and leaves the case store, the history map and the
idempotency ledger untouched. -/
theorem recordPayment_notFound_noop (st : ServiceState) (caseId paymentId : String)
    (amount : Rat) (now : Nat) (h : mapGet st.cases caseId = none) :
    recordPayment st caseId paymentId amount now = (none, st) := by
  unfold recordPayment
  rw [h]

/-- C5 witness: recording a payment against `CASE-FAKE` on the sample state
returns NotFound and the unchanged state. -/
theorem recordPayment_notFound_noop_witness :
    recordPayment initState "CASE-FAKE" "PAY-1" 1000 0 = (none, initState) :=
  recordPayment_notFound_noop initState "CASE-FAKE" "PAY-1" 1000 0 (by decide)

/-- C2 counterexample: the claim asserts the balance equation for all
reachable states, but the very first reachable state (the initialized sample
data) violates it: CASE-2024-001 carries `currentDebt = 15000` while
`max(0, 18000 + 1200 - 3000) = 16200`. -/
theorem balance_invariant_fails_initial :
    mapGet initState.cases "CASE-2024-001" = some sampleCase1 ∧
    sampleCase1.currentDebt ≠
      max 0 (sampleCase1.originalDebt + sampleCase1.interestAccrued
        - sampleCase1.paidAmount) := by
  refine ⟨by decide, ?_⟩
  rw [← mathMax_eq_max]
  decide

/-- C2 (amended): after every successful non-duplicate `recordPayment` the
updated case satisfies `currentDebt = max(0, originalDebt + interestAccrued
- paidAmount)`, and that case is what the store then holds; the equation is
not an invariant of all reachable states because the initial sample data
violates it. -/
theorem recordPayment_balance_invariant (st : ServiceState)
    (caseId paymentId : String) (amount : Rat) (now : Nat) (c : Case)
    (hc : mapGet st.cases caseId = some c)
    (hdup : setHas st.processedPayments (mkKey caseId paymentId) = false) :
    ∃ u, (recordPayment st caseId paymentId amount now).1 = some u ∧
      u.currentDebt = max 0 (u.originalDebt + u.interestAccrued - u.paidAmount) ∧
      mapGet (recordPayment st caseId paymentId amount now).2.cases caseId = some u := by
  unfold recordPayment
  rw [hc]
  simp only [hdup, Bool.false_eq_true, if_false]
  refine ⟨_, rfl, ?_, by rw [mapGet_mapSet_self]⟩
  dsimp only
  split
  · split
    · simp [applyPaymentToCase, mathMax_eq_max]
    · simp [applyPaymentToCase, mathMax_eq_max]
  · split
    · simp [applyPaymentToCase, mathMax_eq_max]
    · simp [applyPaymentToCase, mathMax_eq_max]

/-- C2 witness: a 1500 payment on the first sample case yields a stored case
satisfying the balance equation. -/
theorem recordPayment_balance_invariant_witness :
    ∃ u, (recordPayment initState "CASE-2024-001" "PAY-2" 1500 8).1 = some u ∧
      u.currentDebt = max 0 (u.originalDebt + u.interestAccrued - u.paidAmount) ∧
      mapGet (recordPayment initState "CASE-2024-001" "PAY-2" 1500 8).2.cases
        "CASE-2024-001" = some u :=
  recordPayment_balance_invariant initState "CASE-2024-001" "PAY-2" 1500 8
    sampleCase1 (by decide) (by decide)

/-- C3: a non-duplicate payment that drives the recomputed debt to 0 (or
below) leaves the case CLOSED whatever the prior status was; if the case was
not already CLOSED, `closedAt` is stamped and a CASE_CLOSED history event is
recorded after the PAYMENT_RECEIVED one; if it was already CLOSED, `closedAt`
is untouched and no second closure event is recorded. -/
theorem recordPayment_autoClose (st : ServiceState) (caseId paymentId : String)
    (amount : Rat) (now : Nat) (c : Case)
    (hc : mapGet st.cases caseId = some c)
    (hdup : setHas st.processedPayments (mkKey caseId paymentId) = false)
    (hfull : c.originalDebt + c.interestAccrued - (c.paidAmount + amount) ≤ 0) :
    ∃ u, (recordPayment st caseId paymentId amount now).1 = some u ∧
      u.status = CaseStatus.CLOSED ∧
      (c.status ≠ CaseStatus.CLOSED →
        u.closedAt = some now ∧
        (mapGet (recordPayment st caseId paymentId amount now).2.caseHistory caseId).getD []
          = (mapGet st.caseHistory caseId).getD [] ++
            [{ caseId := caseId, action := "PAYMENT_RECEIVED",
               description := "Payment " ++ paymentId ++ " received: "
                 ++ toString amount ++ " " ++ c.currency,
               performedBy := "payment-service", performedAt := now },
             { caseId := caseId, action := "CASE_CLOSED",
               description := "Case auto-closed: debt fully paid",
               performedBy := "system", performedAt := now }]) ∧
      (c.status = CaseStatus.CLOSED →
        u.closedAt = c.closedAt ∧
        (mapGet (recordPayment st caseId paymentId amount now).2.caseHistory caseId).getD []
          = (mapGet st.caseHistory caseId).getD [] ++
            [{ caseId := caseId, action := "PAYMENT_RECEIVED",
               description := "Payment " ++ paymentId ++ " received: "
                 ++ toString amount ++ " " ++ c.currency,
               performedBy := "payment-service", performedAt := now }]) := by
  have hdebt : (applyPaymentToCase c amount now).currentDebt ≤ 0 := by
    simp only [applyPaymentToCase]
    rw [mathMax_eq_max]
    exact max_le le_rfl hfull
  have hstat : (applyPaymentToCase c amount now).status = c.status := rfl
  unfold recordPayment
  rw [hc]
  simp only [hdup, Bool.false_eq_true, if_false]
  by_cases hclosed : c.status = CaseStatus.CLOSED
  · split
    · next h1 => exact absurd (hstat.trans hclosed) h1.2
    · split
      · next h2 => simp [hstat, hclosed] at h2
      · refine ⟨_, rfl, hstat.trans hclosed, fun hcontra => absurd hclosed hcontra,
          fun _ => ⟨rfl, ?_⟩⟩
        rw [addHistoryEntry_get]
        simp
  · split
    · split
      · next h2 => simp at h2
      · refine ⟨_, rfl, rfl, fun _ => ⟨rfl, ?_⟩, fun hcontra => absurd hcontra hclosed⟩
        rw [addHistoryEntry_get, addHistoryEntry_get]
        simp
    · next h1 =>
        exact absurd ⟨hdebt, fun hh => hclosed (hstat.symm.trans hh)⟩ h1

/-- C3 witness: paying 5520.50 on CASE-2024-002 (debt 5200.50 + 320 interest)
drives the debt to 0 and closes the case with a CASE_CLOSED history event. -/
theorem recordPayment_autoClose_witness :
    ∃ u, (recordPayment initState "CASE-2024-002" "PAY-FULL-001" 5520.50 9).1 = some u ∧
      u.status = CaseStatus.CLOSED ∧
      (sampleCase2.status ≠ CaseStatus.CLOSED →
        u.closedAt = some 9 ∧
        (mapGet (recordPayment initState "CASE-2024-002" "PAY-FULL-001" 5520.50 9).2.caseHistory
            "CASE-2024-002").getD []
          = (mapGet initState.caseHistory "CASE-2024-002").getD [] ++
            [{ caseId := "CASE-2024-002", action := "PAYMENT_RECEIVED",
               description := "Payment " ++ "PAY-FULL-001" ++ " received: "
                 ++ toString (5520.50 : Rat) ++ " " ++ sampleCase2.currency,
               performedBy := "payment-service", performedAt := 9 },
             { caseId := "CASE-2024-002", action := "CASE_CLOSED",
               description := "Case auto-closed: debt fully paid",
               performedBy := "system", performedAt := 9 }]) ∧
      (sampleCase2.status = CaseStatus.CLOSED →
        u.closedAt = sampleCase2.closedAt ∧
        (mapGet (recordPayment initState "CASE-2024-002" "PAY-FULL-001" 5520.50 9).2.caseHistory
            "CASE-2024-002").getD []
          = (mapGet initState.caseHistory "CASE-2024-002").getD [] ++
            [{ caseId := "CASE-2024-002", action := "PAYMENT_RECEIVED",
               description := "Payment " ++ "PAY-FULL-001" ++ " received: "
                 ++ toString (5520.50 : Rat) ++ " " ++ sampleCase2.currency,
               performedBy := "payment-service", performedAt := 9 }]) :=
  recordPayment_autoClose initState "CASE-2024-002" "PAY-FULL-001" 5520.50 9 sampleCase2
    (by decide) (by decide) (by decide)

/-- C4 counterexample: a positive payment of 140000 fully repays the
WRITTEN_OFF sample case CASE-2024-005 (125000 debt + 15000 interest), yet the
resulting status is CLOSED, not ACTIVE, and no CASE_REOPENED history event is
recorded: the auto-close check runs first and suppresses the reopen check.
This falsifies the claim that any positive non-duplicate payment on a
WRITTEN_OFF case, including a fully repaying one, yields ACTIVE with a
CASE_REOPENED event. -/
theorem reopen_fails_on_full_repayment :
    ((recordPayment initState "CASE-2024-005" "PAY-FULL" 140000 0).1.map Case.status
        = some CaseStatus.CLOSED) ∧
    ¬ ((recordPayment initState "CASE-2024-005" "PAY-FULL" 140000 0).1.map Case.status
        = some CaseStatus.ACTIVE) ∧
    ((mapGet (recordPayment initState "CASE-2024-005" "PAY-FULL" 140000 0).2.caseHistory
        "CASE-2024-005").getD []).all (fun e => !(e.action == "CASE_REOPENED")) = true := by
  exact ⟨by decide, by decide, by decide⟩

/-- C4 (amended): a positive non-duplicate payment on a WRITTEN_OFF case that
leaves a strictly positive remaining debt transitions the case to ACTIVE and
records a CASE_REOPENED history event; a fully repaying payment instead
closes the case (the auto-close rule fires first and suppresses the reopen
rule). -/
theorem recordPayment_reopen (st : ServiceState) (caseId paymentId : String)
    (amount : Rat) (now : Nat) (c : Case)
    (hc : mapGet st.cases caseId = some c)
    (hdup : setHas st.processedPayments (mkKey caseId paymentId) = false)
    (hwo : c.status = CaseStatus.WRITTEN_OFF)
    (hpos : 0 < amount)
    (hrem : 0 < c.originalDebt + c.interestAccrued - (c.paidAmount + amount)) :
    ∃ u, (recordPayment st caseId paymentId amount now).1 = some u ∧
      u.status = CaseStatus.ACTIVE ∧
      (mapGet (recordPayment st caseId paymentId amount now).2.caseHistory caseId).getD []
        = (mapGet st.caseHistory caseId).getD [] ++
          [{ caseId := caseId, action := "PAYMENT_RECEIVED",
             description := "Payment " ++ paymentId ++ " received: "
               ++ toString amount ++ " " ++ c.currency,
             performedBy := "payment-service", performedAt := now },
           { caseId := caseId, action := "CASE_REOPENED",
             description := "Case reopened due to payment received after write-off",
             performedBy := "system", performedAt := now }] := by
  have hdebt : ¬ (applyPaymentToCase c amount now).currentDebt ≤ 0 := by
    simp only [applyPaymentToCase]
    rw [mathMax_eq_max]
    intro hle
    exact absurd (le_trans (le_max_right 0 _) hle) (not_le.mpr hrem)
  have hstat : (applyPaymentToCase c amount now).status = c.status := rfl
  unfold recordPayment
  rw [hc]
  simp only [hdup, Bool.false_eq_true, if_false]
  split
  · next h1 => exact absurd h1.1 hdebt
  · split
    · refine ⟨_, rfl, rfl, ?_⟩
      rw [addHistoryEntry_get, addHistoryEntry_get]
      simp
    · next h2 =>
        exact absurd ⟨hstat.trans hwo, hpos⟩ h2

/-- C4 witness: a 500 payment on the WRITTEN_OFF sample case CASE-2024-005
reopens it to ACTIVE with a CASE_REOPENED history event. -/
theorem recordPayment_reopen_witness :
    ∃ u, (recordPayment initState "CASE-2024-005" "PAY-REOPEN-001" 500 6).1 = some u ∧
      u.status = CaseStatus.ACTIVE ∧
      (mapGet (recordPayment initState "CASE-2024-005" "PAY-REOPEN-001" 500 6).2.caseHistory
          "CASE-2024-005").getD []
        = (mapGet initState.caseHistory "CASE-2024-005").getD [] ++
          [{ caseId := "CASE-2024-005", action := "PAYMENT_RECEIVED",
             description := "Payment " ++ "PAY-REOPEN-001" ++ " received: "
               ++ toString (500 : Rat) ++ " " ++ sampleCase5.currency,
             performedBy := "payment-service", performedAt := 6 },
           { caseId := "CASE-2024-005", action := "CASE_REOPENED",
             description := "Case reopened due to payment received after write-off",
             performedBy := "system", performedAt := 6 }] :=
  recordPayment_reopen initState "CASE-2024-005" "PAY-REOPEN-001" 500 6 sampleCase5
    (by decide) (by decide) (by decide) (by decide) (by decide)

/-- Single-step monotonicity: one `recordPayment` call with a non-negative
amount never decreases the `paidAmount` of any stored case. -/
theorem recordPayment_paidAmount_step (st : ServiceState) (caseId paymentId : String)
    (amount : Rat) (now : Nat) (cid : String) (c : Case)
    (ha : 0 ≤ amount) (hc : mapGet st.cases cid = some c) :
    ∃ u, mapGet (recordPayment st caseId paymentId amount now).2.cases cid = some u ∧
      c.paidAmount ≤ u.paidAmount := by
  unfold recordPayment
  cases hfind : mapGet st.cases caseId with
  | none => exact ⟨c, hc, le_refl _⟩
  | some caseData =>
    by_cases hdup : setHas st.processedPayments (mkKey caseId paymentId) = true
    · simp only [hdup, if_true]
      exact ⟨c, hc, le_refl _⟩
    · have hdup' : setHas st.processedPayments (mkKey caseId paymentId) = false :=
        Bool.eq_false_iff.mpr hdup
      simp only [hdup', Bool.false_eq_true, if_false]
      by_cases heq : caseId = cid
      · subst heq
        have hcc : caseData = c := by
          rw [hfind] at hc
          exact Option.some.inj hc
        subst hcc
        refine ⟨_, by rw [mapGet_mapSet_self], ?_⟩
        dsimp only
        split
        · split
          · simp only [applyPaymentToCase]
            exact le_add_of_nonneg_right ha
          · simp only [applyPaymentToCase]
            exact le_add_of_nonneg_right ha
        · split
          · simp only [applyPaymentToCase]
            exact le_add_of_nonneg_right ha
          · simp only [applyPaymentToCase]
            exact le_add_of_nonneg_right ha
      · refine ⟨c, ?_, le_refl _⟩
        rw [mapGet_mapSet_ne _ _ _ _ heq]
        exact hc

/-- C9: across any sequence of `recordPayment` calls with non-negative
amounts (the spec's input constraint), the `paidAmount` of every case present
in the store never decreases; `recordPayment` is the only core operation that
writes `paidAmount`. -/
theorem paidAmount_monotone (st : ServiceState) (ps : List PaymentCmd)
    (cid : String) (c : Case)
    (hpos : ∀ p ∈ ps, 0 ≤ p.amount)
    (hc : mapGet st.cases cid = some c) :
    ∃ u, mapGet (applyPayments st ps).cases cid = some u ∧
      c.paidAmount ≤ u.paidAmount := by
  induction ps generalizing st c with
  | nil => exact ⟨c, hc, le_refl _⟩
  | cons p rest ih =>
    obtain ⟨u, hu, hle⟩ := recordPayment_paidAmount_step st p.caseId p.paymentId
      p.amount p.now cid c (hpos p (List.mem_cons_self p rest)) hc
    obtain ⟨v, hv, hle2⟩ := ih ((recordPayment st p.caseId p.paymentId p.amount p.now).2) u
      (fun q hq => hpos q (List.mem_cons_of_mem p hq)) hu
    refine ⟨v, ?_, le_trans hle hle2⟩
    simpa [applyPayments] using hv

/-- C9 witness: two successive payments on the sample state never decrease
the `paidAmount` of CASE-2024-001. -/
theorem paidAmount_monotone_witness :
    ∃ u, mapGet (applyPayments initState
        [{ caseId := "CASE-2024-001", paymentId := "P1", amount := 100, now := 1 },
         { caseId := "CASE-2024-001", paymentId := "P2", amount := 0, now := 2 }]).cases
      "CASE-2024-001" = some u ∧
      sampleCase1.paidAmount ≤ u.paidAmount :=
  paidAmount_monotone initState
    [{ caseId := "CASE-2024-001", paymentId := "P1", amount := 100, now := 1 },
     { caseId := "CASE-2024-001", paymentId := "P2", amount := 0, now := 2 }]
    "CASE-2024-001" sampleCase1
    (by intro p hp; simp at hp; rcases hp with h | h <;> simp [h])
    (by decide)

/-- A state whose idempotency ledger already holds 10000 keys, for exercising
the eviction path. -/
def evictionState : ServiceState :=
  { cases := [("c", sampleCase2)],
    caseHistory := [("c", [])],
    processedPayments := List.replicate 10000 "K" }

/-- C8: when inserting a fresh idempotency key pushes the ledger above 10000
entries, exactly the first (oldest, in insertion order) 5000 keys are
deleted: the surviving ledger is the suffix after those 5000, whose
concatenation with the evicted prefix restores the pre-eviction ledger, and
its size shrinks accordingly.  Every key still resident is still detected:
replaying any resident (caseId, paymentId) leaves the state untouched. -/
theorem ledger_eviction (st : ServiceState) (caseId paymentId : String)
    (amount : Rat) (now : Nat) (c : Case)
    (hc : mapGet st.cases caseId = some c)
    (hdup : setHas st.processedPayments (mkKey caseId paymentId) = false)
    (hlen : 10000 ≤ st.processedPayments.length) :
    (recordPayment st caseId paymentId amount now).2.processedPayments
        = (st.processedPayments ++ [mkKey caseId paymentId]).drop 5000 ∧
    (st.processedPayments ++ [mkKey caseId paymentId]).take 5000
        ++ (recordPayment st caseId paymentId amount now).2.processedPayments
        = st.processedPayments ++ [mkKey caseId paymentId] ∧
    (recordPayment st caseId paymentId amount now).2.processedPayments.length
        = st.processedPayments.length + 1 - 5000 ∧
    (∀ cid2 pid2 : String, ∀ amount2 : Rat, ∀ now2 : Nat,
      setHas (recordPayment st caseId paymentId amount now).2.processedPayments
          (mkKey cid2 pid2) = true →
      (recordPayment (recordPayment st caseId paymentId amount now).2 cid2 pid2 amount2 now2).2
        = (recordPayment st caseId paymentId amount now).2) := by
  have hadd : setAdd st.processedPayments (mkKey caseId paymentId)
      = st.processedPayments ++ [mkKey caseId paymentId] := by
    unfold setAdd
    rw [if_neg]
    intro habs
    have hh : setHas st.processedPayments (mkKey caseId paymentId) = true := habs
    rw [hh] at hdup
    exact absurd hdup (by decide)
  have hpp : (recordPayment st caseId paymentId amount now).2.processedPayments
      = (st.processedPayments ++ [mkKey caseId paymentId]).drop 5000 := by
    unfold recordPayment
    rw [hc]
    simp only [hdup, Bool.false_eq_true, if_false]
    split
    · rw [hadd]
    · next hnot =>
        exfalso
        rw [hadd] at hnot
        simp [List.length_append] at hnot
        omega
  refine ⟨hpp, ?_, ?_, ?_⟩
  · rw [hpp, List.take_append_drop]
  · rw [hpp, List.length_drop, List.length_append]
    simp
  · intro cid2 pid2 amount2 now2 hmem
    exact recordPayment_suppressed _ cid2 pid2 amount2 now2 hmem

/-- C8 witness: inserting a fresh key into a 10000-key ledger evicts the
oldest 5000 keys, and the fresh key is still detected as a duplicate: a
replay of the same (caseId, paymentId) leaves the state untouched. -/
theorem ledger_eviction_witness :
    (recordPayment evictionState "c" "p" 5 0).2.processedPayments
        = (evictionState.processedPayments ++ [mkKey "c" "p"]).drop 5000 ∧
    (recordPayment (recordPayment evictionState "c" "p" 5 0).2 "c" "p" 7 9).2
        = (recordPayment evictionState "c" "p" 5 0).2 := by
  have hpp : evictionState.processedPayments = List.replicate 10000 "K" := rfl
  have hdup : setHas evictionState.processedPayments (mkKey "c" "p") = false := by
    rw [Bool.eq_false_iff]
    intro hh
    rw [setHas_true_iff, hpp, List.mem_replicate] at hh
    exact absurd hh.2 (by decide)
  have hlen : 10000 ≤ evictionState.processedPayments.length := by
    rw [hpp, List.length_replicate]
  have h := ledger_eviction evictionState "c" "p" 5 0 sampleCase2 (by decide) hdup hlen
  refine ⟨h.1, h.2.2.2 "c" "p" 7 9 ?_⟩
  rw [h.1, setHas_true_iff, hpp, List.drop_append_eq_append_drop, List.length_replicate]
  apply List.mem_append_right
  simp

/-- C10: for every existing case, `getCaseStatus` reports
`canAcceptPayments = false` exactly when the status is LEGAL_ACTION; a CLOSED
case gets `canAcceptPayments = true` with no reason string, and the
CLOSED-specific reason text is unreachable for every input. -/
theorem caseStatus_canAccept (st : ServiceState) (id : String)
    (resp : CaseStatusResponse) (h : getCaseStatus st id = some resp) :
    (resp.canAcceptPayments = false ↔ resp.status = CaseStatus.LEGAL_ACTION) ∧
    (resp.status = CaseStatus.CLOSED →
      resp.canAcceptPayments = true ∧ resp.reason = none) ∧
    resp.reason ≠ some "Case is closed. Payment may trigger review." := by
  unfold getCaseStatus at h
  cases hm : mapGet st.cases id with
  | none => rw [hm] at h; exact absurd h (by simp)
  | some c =>
    rw [hm] at h
    dsimp only at h
    have hr := Option.some.inj h
    subst hr
    cases c.status <;> simp [canAcceptPayments]

/-- C10 witness: the CLOSED sample case CASE-2024-004 reports
`canAcceptPayments = true` and no reason. -/
theorem caseStatus_canAccept_witness :
    ((CaseStatusResponse.mk "CASE-2024-004" CaseStatus.CLOSED true none).canAcceptPayments = false
        ↔ (CaseStatusResponse.mk "CASE-2024-004" CaseStatus.CLOSED true none).status
            = CaseStatus.LEGAL_ACTION) ∧
    ((CaseStatusResponse.mk "CASE-2024-004" CaseStatus.CLOSED true none).status
        = CaseStatus.CLOSED →
      (CaseStatusResponse.mk "CASE-2024-004" CaseStatus.CLOSED true none).canAcceptPayments = true ∧
      (CaseStatusResponse.mk "CASE-2024-004" CaseStatus.CLOSED true none).reason = none) ∧
    (CaseStatusResponse.mk "CASE-2024-004" CaseStatus.CLOSED true none).reason
      ≠ some "Case is closed. Payment may trigger review." :=
  caseStatus_canAccept initState "CASE-2024-004"
    (CaseStatusResponse.mk "CASE-2024-004" CaseStatus.CLOSED true none) (by decide)

/-- C6: when processing a delivered message fails (here: the referenced case
does not exist, the consumer's `handlePaymentCompleted` throws), the consumer
inspects the cumulative x-death count: strictly below 3 it
negative-acknowledges with requeue (retry), at 3 or more it
negative-acknowledges to the dead-letter route; in both cases nothing is
mutated.  A failing message is therefore retried at death counts 0, 1 and 2
and dead-lettered from death count 3 on, never requeued again. -/
theorem consumer_retry_boundary (st : ServiceState) (ids : List String)
    (msg : ConsumeMessage) (publishFails : Bool) (now : Nat)
    (hnew : setHas ids msg.event.eventId = false)
    (hmiss : mapGet st.cases msg.event.payload.caseId = none) :
    (getDeathCount msg < 3 →
      processMessage st ids msg publishFails now = ([Effect.nackRequeue], st, ids)) ∧
    (3 ≤ getDeathCount msg →
      processMessage st ids msg publishFails now = ([Effect.nackDeadLetter], st, ids)) := by
  constructor
  · intro hlt
    unfold processMessage
    dsimp only
    rw [hnew]
    simp only [Bool.false_eq_true, if_false]
    rw [hmiss]
    dsimp only
    unfold handleFailure
    rw [if_pos hlt]
  · intro hge
    unfold processMessage
    dsimp only
    rw [hnew]
    simp only [Bool.false_eq_true, if_false]
    rw [hmiss]
    dsimp only
    unfold handleFailure
    rw [if_neg (Nat.not_lt.mpr hge)]

/-- C6 witness: a message for an unknown case whose x-death entries sum to 3
is sent to the dead-letter route. -/
theorem consumer_retry_boundary_witness :
    processMessage initState []
      { headers := some { xDeath := some [{ count := some 1 }, { count := some 2 }] },
        event :=
          { eventId := "EVT-DLQ", timestamp := "t", version := "1.0",
            source := "payment-service", correlationId := "PAY-DLQ",
            payload :=
              { id := "PAY-DLQ", caseId := "CASE-FAKE", debtorId := "D",
                amount := 5, currency := "PLN", status := "completed" } } }
      false 0
    = ([Effect.nackDeadLetter], initState, []) :=
  (consumer_retry_boundary initState []
    { headers := some { xDeath := some [{ count := some 1 }, { count := some 2 }] },
      event :=
        { eventId := "EVT-DLQ", timestamp := "t", version := "1.0",
          source := "payment-service", correlationId := "PAY-DLQ",
          payload :=
            { id := "PAY-DLQ", caseId := "CASE-FAKE", debtorId := "D",
              amount := 5, currency := "PLN", status := "completed" } } }
    false 0 (by decide) (by decide)).2 (by decide)

/-- A well-formed `payment.completed` delivery for the first sample case. -/
def sampleMsg : ConsumeMessage :=
  { headers := none,
    event :=
      { eventId := "EVT-1", timestamp := "2024-02-01T00:00:00Z", version := "1.0",
        source := "payment-service", correlationId := "PAY-1",
        payload :=
          { id := "PAY-1", caseId := "CASE-2024-001", debtorId := "DBT-12345",
            amount := 100, currency := "PLN", status := "completed" } } }

/-- C7 counterexample: the claim orders the side effects as reconciliation,
then acknowledgement, then publish.  On a successfully processed concrete
message the consumer in fact publishes the derived balance-updated event
*before* acknowledging: the publish attempt occurs strictly before the first
ack in the effect trace (`handlePaymentCompleted` publishes inside itself and
`channel.ack` runs only after it returns). -/
theorem ack_before_publish_refuted :
    (processMessage initState [] sampleMsg false 5).1.contains Effect.ack = true ∧
    publishBeforeAck (processMessage initState [] sampleMsg false 5).1 = true := by
  exact ⟨by decide, by decide⟩

/-- C7 (amended): for every successfully processed payment message the
effects are ordered reconciliation first, then the derived-event publish
attempts, then the acknowledgement last; no negative acknowledgement occurs,
and the already-applied reconciliation is exactly one `recordPayment`
whatever the publish outcome: a publish failure is swallowed inside the
publisher (logged), so it neither prevents the ack nor rolls back or retries
the reconciliation. -/
theorem consumer_effect_order (st : ServiceState) (ids : List String)
    (msg : ConsumeMessage) (publishFails : Bool) (now : Nat) (c : Case)
    (hnew : setHas ids msg.event.eventId = false)
    (hc : mapGet st.cases msg.event.payload.caseId = some c) :
    ∃ mid, (processMessage st ids msg publishFails now).1
        = Effect.reconcile msg.event.payload.caseId msg.event.payload.id
            msg.event.payload.amount :: (mid ++ [Effect.ack]) ∧
      mid.any isPublishEffect = true ∧
      Effect.nackRequeue ∉ mid ∧
      Effect.nackDeadLetter ∉ mid ∧
      (processMessage st ids msg publishFails now).2.1
        = (recordPayment st msg.event.payload.caseId msg.event.payload.id
            msg.event.payload.amount now).2 := by
  obtain ⟨u, hu⟩ := recordPayment_found st msg.event.payload.caseId
    msg.event.payload.id msg.event.payload.amount now c hc
  unfold processMessage
  dsimp only
  rw [hnew]
  simp only [Bool.false_eq_true, if_false]
  rw [hc]
  dsimp only
  rw [hu]
  dsimp only
  refine ⟨_, rfl, ?_, ?_, ?_, rfl⟩
  · cases publishFails <;> simp [publishAttempt, isPublishEffect]
  · cases publishFails <;> split <;> simp [publishAttempt]
  · cases publishFails <;> split <;> simp [publishAttempt]

/-- C7 witness: processing a fresh message for CASE-2024-001 with a failing
publisher still yields a reconcile-first, ack-last, nack-free trace with a
publish attempt in between, and the state is the one `recordPayment`
produced. -/
theorem consumer_effect_order_witness :
    ∃ mid, (processMessage initState [] sampleMsg true 5).1
        = Effect.reconcile sampleMsg.event.payload.caseId sampleMsg.event.payload.id
            sampleMsg.event.payload.amount :: (mid ++ [Effect.ack]) ∧
      mid.any isPublishEffect = true ∧
      Effect.nackRequeue ∉ mid ∧
      Effect.nackDeadLetter ∉ mid ∧
      (processMessage initState [] sampleMsg true 5).2.1
        = (recordPayment initState sampleMsg.event.payload.caseId
            sampleMsg.event.payload.id sampleMsg.event.payload.amount 5).2 :=
  consumer_effect_order initState [] sampleMsg true 5 sampleCase1 (by decide) (by decide)
